import Mathlib

/-!
Verification of the F´ deployment-template lifecycle orchestration.

Shallow embedding of the cookiecutter deployment template:
`Main.cpp` (command-line processing and program skeleton) and
`{{deployment}}Topology.cpp` (`setupTopology`, `configureTopology`,
`startSimulatedCycle`, `stopSimulatedCycle`, `teardownTopology`).

The lifecycle functions call out to autocoded collaborators and the
transport driver; we model each such call as an emitted `Event` and each
lifecycle function as the list of events it emits, in order.  The template
is generated in one of two configurations (`com_driver_type` is
TcpServer/TcpClient, or UART); the `TopologyState` struct holds
(hostname, port) in the Tcp configurations and (uartDevice, baudRate) in
the UART configuration, so a single inductive carries both shapes.
-/

namespace FprimeDeployment

/-- One externally visible call made by the lifecycle code.  Each
constructor corresponds to one call site in `Topology.cpp`. -/
inductive Event where
  | initComponents        -- autocoded initialization
  | setBaseIds            -- autocoded id setup
  | connectComponents     -- autocoded connection wiring
  | configComponents      -- autocoded configuration
  | configureTopologyCall -- deployment-specific configuration helper
  | regCommands           -- autocoded command registration
  | loadParameters        -- autocoded parameter loading
  | startTasks            -- autocoded task kick-off
  | comDriverConfigure    -- comDriver.configure(hostname, port)
  | comDriverOpen         -- comDriver.open(device, baud, ...)
  | comDriverStart        -- comDriver.start(...)
  | printUartOpenFail     -- printf on failed UART open
  | stopTasks             -- autocoded task clean-up
  | freeThreads           -- autocoded thread clean-up
  | comDriverStop         -- comDriver.stop()
  | comDriverQuitRead     -- comDriver.quitReadThread()
  | comDriverJoin         -- comDriver.join()
  | cmdSeqDeallocate      -- cmdSeq.deallocateBuffer(mallocator)
  | bufferManagerCleanup  -- bufferManager.cleanup()
  deriving DecidableEq, Repr, Fintype

/-- The struct `TopologyState` from `TopologyDefs.hpp`.  Its
contents depend on the template configuration: `(hostname, port)` for the
TcpServer/TcpClient branches (a null `CHAR*` is `none`; `port` is a `U16`,
kept below 2^16 by construction in `main`), `(uartDevice, baudRate)` for
the UART branch. -/
inductive TopologyState where
  | tcp (hostname : Option String) (port : Nat)
  | uart (uartDevice : Option String) (baudRate : Nat)
  deriving DecidableEq, Repr

/-- The eight bring-up phases of `setupTopology`, in source order:
initComponents, setBaseIds, connectComponents, configComponents,
configureTopology, regCommands, loadParameters, startTasks. -/
def bringUpPhases : List Event :=
  [.initComponents, .setBaseIds, .connectComponents, .configComponents,
   .configureTopologyCall, .regCommands, .loadParameters, .startTasks]

/-- Is this event one of the eight bring-up phase calls? -/
def isBringUpPhase : Event → Bool
  | .initComponents => true
  | .setBaseIds => true
  | .connectComponents => true
  | .configComponents => true
  | .configureTopologyCall => true
  | .regCommands => true
  | .loadParameters => true
  | .startTasks => true
  | _ => false

/-- The function `setupTopology(state)` from `Topology.cpp`.  The eight phase calls are
unconditional; afterwards the transport bring-up depends on the template
configuration: in the Tcp branches `comDriver.configure`/`start` run iff
`state.hostname != nullptr && state.port != 0`; in the UART branch
`comDriver.open` runs iff `state.uartDevice != nullptr`, followed by
`comDriver.start` when the open succeeded and an error printf otherwise.
`uartOpenOk` is the (external) result of `comDriver.open`; it is read only
in the UART branch. -/
def setupTopology (state : TopologyState) (uartOpenOk : Bool) : List Event :=
  bringUpPhases ++
    match state with
    | .tcp hostname port =>
        if hostname ≠ none ∧ port ≠ 0 then
          [.comDriverConfigure, .comDriverStart]
        else []
    | .uart uartDevice _baudRate =>
        if uartDevice ≠ none then
          .comDriverOpen ::
            (if uartOpenOk then [.comDriverStart] else [.printUartOpenFail])
        else []

/-- The function `teardownTopology(state)` from `Topology.cpp`: stopTasks, freeThreads,
then the driver stop (quitReadThread in the UART configuration,
comDriver.stop otherwise) and join, then cmdSeq.deallocateBuffer and
bufferManager.cleanup.  All calls are unconditional. -/
def teardownTopology (state : TopologyState) : List Event :=
  [.stopTasks, .freeThreads] ++
    (match state with
     | .uart _ _ => [.comDriverQuitRead, .comDriverJoin]
     | .tcp _ _ => [.comDriverStop, .comDriverJoin]) ++
    [.cmdSeqDeallocate, .bufferManagerCleanup]

/-- The divisor set from `Topology.cpp` line 33:
`Svc::RateGroupDriver::DividerSet rateGroupDivisorsSet{{{1, 0}, {2, 0}, {4, 0}}}`,
as (divisor, offset) pairs. -/
def rateGroupDivisorsSet : List (Nat × Nat) := [(1, 0), (2, 0), (4, 0)]

/-- Modelled from the spec: the `Svc::RateGroupDriver` firing rule is not
under `src/` (the driver is a framework collaborator; only its divisor-set
configuration appears here).  Per the spec, a derived group fires on base
tick `t` iff `(t + offset) % divisor == 0`; `tickFiringIndices` returns
the group indices that fire for a base counter value. -/
def tickFiringIndices (divisors : List (Nat × Nat)) (counter : Nat) : List Nat :=
  (divisors.enum.filter
    (fun p => (counter + p.2.2) % p.2.1 == 0)).map Prod.fst

/-! Main.cpp: command-line processing (TcpServer/TcpClient configuration).

`main` loops over `getopt(argc, argv, "hp:a:")`; we model the stream of
values getopt produces as a list: `'a'` and `'p'` carry their `optarg`,
`'h'` is the help flag, and `'?'` is getopt's return for an unrecognized
option or a missing required argument. -/

/-- One return value of `getopt` in `main`'s option loop. -/
inductive GetoptResult where
  | optHostname (optarg : String) -- 'a' with its argument
  | optPort (optarg : String)     -- 'p' with its argument
  | optHelp                       -- 'h'
  | optUnknown                    -- getopt returned unrecognized or malformed
  deriving DecidableEq, Repr

/-- Does the option carry data (the 'a'/'p' cases of the switch)? -/
def isDataOpt : GetoptResult → Bool
  | .optHostname _ => true
  | .optPort _ => true
  | _ => false

/-- Accumulate the value of the digit characters at the head of `cs` onto
`acc` (the digit-consuming loop of C `atoi`). -/
def atoiDigits : List Char → Nat → Nat
  | [], acc => acc
  | c :: cs, acc =>
      if c.isDigit then atoiDigits cs (10 * acc + (c.toNat - '0'.toNat))
      else acc

/-- Handle the optional sign in front of the digits of C `atoi`. -/
def atoiSigned : List Char → Int
  | '-' :: cs => -(atoiDigits cs 0 : Int)
  | '+' :: cs => (atoiDigits cs 0 : Int)
  | cs => (atoiDigits cs 0 : Int)

/-- The whitespace class skipped by C `atoi` (C `isspace`). -/
def isSpaceChar (c : Char) : Bool :=
  c == ' ' || c == '\t' || c == '\n' || c == '\r' || c.toNat == 11 || c.toNat == 12

/-- C `atoi`: skip whitespace, optional sign, consume digits (0 when no
digit follows).  Integer overflow of the C `int` is undefined behavior and
is not modelled; the claims use in-range inputs. -/
def atoi (s : String) : Int :=
  atoiSigned (s.toList.dropWhile isSpaceChar)

/-- The cast `static_cast<U16>` applied to an `int` value: conversion to an unsigned
16-bit type reduces the value modulo 2^16. -/
def toU16 (x : Int) : Nat := (x % 65536).toNat

/-- Outcome of `main` after the option loop.  `earlyExit code` is the
`print_usage(argv[0]); return ...` path taken inside the loop, before the
`TopologyState` is built and before any component is touched; `run state`
is the fall-through that installs the signal handlers and then calls
`setupTopology state`, `startSimulatedCycle`, `teardownTopology state`
and returns 0. -/
inductive MainOutcome where
  | earlyExit (code : Nat)
  | run (state : TopologyState)
  deriving DecidableEq, Repr

/-- The `while ((option = getopt(...)) != -1) switch (option) ...` loop of
`main` (Tcp configuration), carrying the locals `hostname` (initially
`nullptr`) and `port_number` (initially 0).  `'a'` stores `optarg`; `'p'`
stores `static_cast<U16>(atoi(optarg))`; `'h'`, `'?'` and the default case
print usage and return `(option == 'h') ? 0 : 1`. -/
def mainArgLoop : List GetoptResult → Option String → Nat → MainOutcome
  | [], hostname, port => .run (.tcp hostname port)
  | .optHostname s :: rest, _, port => mainArgLoop rest (some s) port
  | .optPort s :: rest, hostname, _ => mainArgLoop rest hostname (toU16 (atoi s))
  | .optHelp :: _, _, _ => .earlyExit 0
  | .optUnknown :: _, _, _ => .earlyExit 1

/-- The whole of `main` up to its option loop, from the initial locals
`hostname = nullptr`, `port_number = 0`. -/
def mainTcp (opts : List GetoptResult) : MainOutcome :=
  mainArgLoop opts none 0

/-! The simulated cycle loop.

`startSimulatedCycle` runs on the main thread while `stopSimulatedCycle`
may run concurrently (signal handler or another thread); both access the
shared `volatile bool cycleFlag` (initially `true`) under `cycleLock`, so
each locked read and each locked write is one atomic step.  We give a
small-step interleaving semantics: program-counter positions of
`startSimulatedCycle`, plus an environment step for `stopSimulatedCycle`
that may fire between any two program steps. -/

/-- Program counter of `startSimulatedCycle`. -/
inductive CyclePC where
  | readInit  -- the initial locked read of cycleFlag into `cycling`
  | loopTest  -- the `while (cycling)` test
  | tickCall  -- blockDrv.callIsr()
  | sleep     -- Os::Task::delay(interval)
  | readAgain -- the locked re-read of cycleFlag into `cycling`
  | done      -- the function has returned
  deriving DecidableEq, Repr

/-- Joint state of `startSimulatedCycle` (its program counter and local
`cycling`) and the shared `cycleFlag`. -/
structure CycleState where
  pc : CyclePC
  cycling : Bool
  cycleFlag : Bool
  deriving DecidableEq, Repr

/-- Observable labels: a locked read of `cycleFlag` (with the value read),
one base-tick emission (`blockDrv.callIsr()`), an internal step, and the
environment's `stopSimulatedCycle` call. -/
inductive CycleLabel where
  | readFlag (b : Bool)
  | tick
  | tau
  | stop
  deriving DecidableEq, Repr

/-- One atomic step of the loop or of a concurrent `stopSimulatedCycle`.
The program steps transcribe `startSimulatedCycle` line by line; `stop`
is `stopSimulatedCycle`'s locked `cycleFlag = false`, allowed from any
state. -/
inductive CycleStep : CycleState → CycleLabel → CycleState → Prop where
  | readInit (c f : Bool) :
      CycleStep ⟨.readInit, c, f⟩ (.readFlag f) ⟨.loopTest, f, f⟩
  | loopEnter (f : Bool) :
      CycleStep ⟨.loopTest, true, f⟩ .tau ⟨.tickCall, true, f⟩
  | loopExit (f : Bool) :
      CycleStep ⟨.loopTest, false, f⟩ .tau ⟨.done, false, f⟩
  | tick (c f : Bool) :
      CycleStep ⟨.tickCall, c, f⟩ .tick ⟨.sleep, c, f⟩
  | sleep (c f : Bool) :
      CycleStep ⟨.sleep, c, f⟩ .tau ⟨.readAgain, c, f⟩
  | readAgain (c f : Bool) :
      CycleStep ⟨.readAgain, c, f⟩ (.readFlag f) ⟨.loopTest, f, f⟩
  | stop (pc : CyclePC) (c f : Bool) :
      CycleStep ⟨pc, c, f⟩ .stop ⟨pc, c, false⟩

/-- Finite executions: reflexive-transitive closure of `CycleStep`,
recording the emitted labels. -/
inductive CycleTrace : CycleState → List CycleLabel → CycleState → Prop where
  | refl (s : CycleState) : CycleTrace s [] s
  | cons {s s1 s2 : CycleState} {l : CycleLabel} {tr : List CycleLabel} :
      CycleStep s l s1 → CycleTrace s1 tr s2 → CycleTrace s (l :: tr) s2

/-- Number of base ticks emitted along a trace. -/
def countTicks (tr : List CycleLabel) : Nat := tr.count .tick

/-- Upper bound on the ticks the loop can still emit once `cycleFlag` is
false: one if the loop is at the tick call or committed to entering the
body, zero otherwise. -/
def tickBudget (s : CycleState) : Nat :=
  match s.pc with
  | .tickCall => 1
  | .loopTest => if s.cycling then 1 else 0
  | _ => 0

/-- Once the shared flag is false, no step sets it back (stopping is
one-shot: `stopSimulatedCycle` only clears, reads do not write). -/
lemma CycleStep.flag_stays_false {s s1 : CycleState} {l : CycleLabel}
    (h : CycleStep s l s1) (hf : s.cycleFlag = false) : s1.cycleFlag = false := by
  cases h <;> simp_all

/-- With the flag false, each step spends the tick budget: the ticks the
step emits plus the budget afterwards never exceed the budget before. -/
lemma CycleStep.budget_spend {s s1 : CycleState} {l : CycleLabel}
    (h : CycleStep s l s1) (hf : s.cycleFlag = false) :
    countTicks [l] + tickBudget s1 ≤ tickBudget s := by
  cases h <;> simp_all [countTicks, tickBudget]

/-- Ticks in a trace split at its head. -/
lemma countTicks_cons (l : CycleLabel) (tr : List CycleLabel) :
    countTicks (l :: tr) = countTicks [l] + countTicks tr := by
  simp [countTicks, List.count_cons, Nat.add_comm]

/-- With the flag false, a whole trace emits at most the initial tick
budget. -/
lemma CycleTrace.ticks_le_budget {s s2 : CycleState} {tr : List CycleLabel}
    (h : CycleTrace s tr s2) (hf : s.cycleFlag = false) :
    countTicks tr ≤ tickBudget s := by
  induction h with
  | refl s => simp [countTicks]
  | cons hstep htr ih =>
      rw [countTicks_cons]
      have h1 := hstep.budget_spend hf
      have h2 := ih (hstep.flag_stays_false hf)
      omega

/-- The tick budget never exceeds one. -/
lemma tickBudget_le_one (s : CycleState) : tickBudget s ≤ 1 := by
  rcases s with ⟨pc, c, f⟩
  cases pc <;> cases c <;> simp [tickBudget]

/-- From any state with the flag false the loop can run to completion
(`pc = done`) emitting at most its tick budget. -/
lemma CycleState.terminates_of_flag_false (s : CycleState)
    (hf : s.cycleFlag = false) :
    ∃ tr s2, CycleTrace s tr s2 ∧ s2.pc = .done ∧ countTicks tr ≤ tickBudget s := by
  rcases s with ⟨pc, c, f⟩
  cases hf
  cases pc with
  | readInit =>
      exact ⟨_, _, .cons (.readInit c false) (.cons (.loopExit false) (.refl _)),
        rfl, by simp [countTicks]⟩
  | loopTest =>
      cases c with
      | false => exact ⟨_, _, .cons (.loopExit false) (.refl _), rfl, by simp [countTicks]⟩
      | true =>
          exact ⟨_, _, .cons (.loopEnter false) (.cons (.tick true false)
            (.cons (.sleep true false) (.cons (.readAgain true false)
              (.cons (.loopExit false) (.refl _))))),
            rfl, by simp [countTicks, tickBudget]⟩
  | tickCall =>
      exact ⟨_, _, .cons (.tick c false) (.cons (.sleep c false)
        (.cons (.readAgain c false) (.cons (.loopExit false) (.refl _)))),
        rfl, by simp [countTicks, tickBudget]⟩
  | sleep =>
      exact ⟨_, _, .cons (.sleep c false) (.cons (.readAgain c false)
        (.cons (.loopExit false) (.refl _))), rfl, by simp [countTicks]⟩
  | readAgain =>
      exact ⟨_, _, .cons (.readAgain c false) (.cons (.loopExit false) (.refl _)),
        rfl, by simp [countTicks]⟩
  | done => exact ⟨[], _, .refl _, rfl, by simp [countTicks]⟩

/-! Claim theorems. -/

/-- C1: for every `TopologyState` (and every outcome of the external UART
open in the UART configuration), `setupTopology` invokes the eight
bring-up phases exactly once each and in the fixed order initComponents,
setBaseIds, connectComponents, configComponents, configureTopology,
regCommands, loadParameters, startTasks: the phase calls among its emitted
events are exactly `bringUpPhases`, and each phase call occurs exactly
once. -/
theorem setupTopology_phases_once_in_order (state : TopologyState) (uartOpenOk : Bool) :
    (setupTopology state uartOpenOk).filter (fun e => isBringUpPhase e) = bringUpPhases ∧
    ∀ e, isBringUpPhase e = true → (setupTopology state uartOpenOk).count e = 1 := by
  cases state <;> unfold setupTopology <;> (repeat' split) <;> decide

/-- C4: for every `TopologyState`, `teardownTopology` emits exactly the
fixed sequence: stopTasks, freeThreads, the transport stop (comDriver.stop
in the Tcp configurations, quitReadThread in the UART configuration),
comDriver.join, and only then the resource releases cmdSeq.deallocateBuffer
and bufferManager.cleanup. -/
theorem teardownTopology_fixed_order (state : TopologyState) :
    ∃ stopEvt, (stopEvt = Event.comDriverStop ∨ stopEvt = Event.comDriverQuitRead) ∧
      teardownTopology state =
        [.stopTasks, .freeThreads, stopEvt, .comDriverJoin,
         .cmdSeqDeallocate, .bufferManagerCleanup] := by
  cases state with
  | tcp hostname port => exact ⟨.comDriverStop, .inl rfl, rfl⟩
  | uart uartDevice baudRate => exact ⟨.comDriverQuitRead, .inr rfl, rfl⟩

/-- C5: for every Tcp-configuration `TopologyState` whose port is 0 or
whose hostname is null, `setupTopology` never invokes the transport
driver's configure or start, and its emitted events are exactly the eight
bring-up phases in the fixed order. -/
theorem setupTopology_transport_skipped_when_unset
    (hostname : Option String) (port : Nat) (uartOpenOk : Bool)
    (h : port = 0 ∨ hostname = none) :
    setupTopology (.tcp hostname port) uartOpenOk = bringUpPhases ∧
    Event.comDriverConfigure ∉ setupTopology (.tcp hostname port) uartOpenOk ∧
    Event.comDriverStart ∉ setupTopology (.tcp hostname port) uartOpenOk := by
  have hcond : ¬(hostname ≠ none ∧ port ≠ 0) := by
    rcases h with h | h <;> simp [h]
  refine ⟨?_, ?_, ?_⟩ <;> simp [setupTopology, hcond] <;> decide

/-- Witness for C5 at the spec's example state
`{address = "127.0.0.1", port = 0}`. -/
theorem setupTopology_transport_skipped_when_unset_witness :
    setupTopology (.tcp (some "127.0.0.1") 0) true = bringUpPhases ∧
    Event.comDriverConfigure ∉ setupTopology (.tcp (some "127.0.0.1") 0) true ∧
    Event.comDriverStart ∉ setupTopology (.tcp (some "127.0.0.1") 0) true :=
  setupTopology_transport_skipped_when_unset (some "127.0.0.1") 0 true (Or.inl rfl)

/-- C9: for every `TopologyState`, `teardownTopology` unconditionally
invokes the transport driver's stop (comDriver.stop or quitReadThread)
and its join — in particular also for states (null hostname/device,
port 0, failed UART open) for which `setupTopology` never configured or
started the driver. -/
theorem teardownTopology_driver_stop_unconditional (state : TopologyState) :
    Event.comDriverJoin ∈ teardownTopology state ∧
      (Event.comDriverStop ∈ teardownTopology state ∨
        Event.comDriverQuitRead ∈ teardownTopology state) := by
  cases state with
  | tcp hostname port =>
      exact ⟨by simp [teardownTopology], .inl (by simp [teardownTopology])⟩
  | uart uartDevice baudRate =>
      exact ⟨by simp [teardownTopology], .inr (by simp [teardownTopology])⟩

/-- C6: with the configured divisor set {(1,0),(2,0),(4,0)} and the firing
rule "group i fires on base tick t iff (t + offset) % divisor == 0", base
ticks 0..4 fire exactly the group-index sets {0,1,2}, {0}, {0,1}, {0},
{0,1,2}. -/
theorem rateGroup_tick_schedule :
    tickFiringIndices rateGroupDivisorsSet 0 = [0, 1, 2] ∧
    tickFiringIndices rateGroupDivisorsSet 1 = [0] ∧
    tickFiringIndices rateGroupDivisorsSet 2 = [0, 1] ∧
    tickFiringIndices rateGroupDivisorsSet 3 = [0] ∧
    tickFiringIndices rateGroupDivisorsSet 4 = [0, 1, 2] := by
  decide

/-- C3 counterexample: at the concrete state (hostname "127.0.0.1",
port 50000), running `teardownTopology` twice in succession performs a
second `comDriver.join` of the already-joined thread — the join call count
is 2, refuting "no second attempt to join". -/
theorem teardownTopology_twice_second_join :
    ¬ ((teardownTopology (.tcp (some "127.0.0.1") 50000) ++
          teardownTopology (.tcp (some "127.0.0.1") 50000)).count
        Event.comDriverJoin ≤ 1) := by
  decide

/-- C3 (amended): calling `teardownTopology` twice in succession
re-executes every sub-step a second time — in particular it performs a
second `comDriver.join`, a second `cmdSeq.deallocateBuffer` and a second
`bufferManager.cleanup`; the code contains no idempotence guard. -/
theorem teardownTopology_twice_repeats_substeps (state : TopologyState) :
    (teardownTopology state ++ teardownTopology state).count Event.comDriverJoin = 2 ∧
    (teardownTopology state ++ teardownTopology state).count Event.cmdSeqDeallocate = 2 ∧
    (teardownTopology state ++ teardownTopology state).count Event.bufferManagerCleanup = 2 := by
  cases state <;> exact ⟨rfl, rfl, rfl⟩

/-- Helper for C7: once the option loop meets the help flag or an
unrecognized/malformed option, it returns early with exit code 0 ('h')
or 1 (anything else), for any accumulated hostname and port. -/
lemma mainArgLoop_early_exit (pre rest : List GetoptResult)
    (hpre : ∀ o ∈ pre, isDataOpt o = true) (h : Option String) (p : Nat) :
    mainArgLoop (pre ++ .optHelp :: rest) h p = .earlyExit 0 ∧
    mainArgLoop (pre ++ .optUnknown :: rest) h p = .earlyExit 1 := by
  induction pre generalizing h p with
  | nil => exact ⟨rfl, rfl⟩
  | cons o pre ih =>
      have ho : isDataOpt o = true := hpre o (List.mem_cons_self o pre)
      have hrest : ∀ o2 ∈ pre, isDataOpt o2 = true :=
        fun o2 ho2 => hpre o2 (List.mem_cons_of_mem o ho2)
      cases o with
      | optHostname s => simpa using ih hrest (some s) p
      | optPort s => simpa using ih hrest h (toU16 (atoi s))
      | optHelp => simp [isDataOpt] at ho
      | optUnknown => simp [isDataOpt] at ho

/-- C7: however many well-formed '-a'/'-p' options precede it, the option
loop of `main` exits with code 0 (after printing usage) on the '-h' flag,
and with code 1 (after printing usage) on an unrecognized or malformed
argument — in both cases through the `earlyExit` path, before any
component is touched. -/
theorem main_usage_exit_codes (pre rest : List GetoptResult)
    (hpre : ∀ o ∈ pre, isDataOpt o = true) :
    mainTcp (pre ++ .optHelp :: rest) = .earlyExit 0 ∧
    mainTcp (pre ++ .optUnknown :: rest) = .earlyExit 1 :=
  mainArgLoop_early_exit pre rest hpre none 0

/-- Witness for C7: a '-p 100' option followed by '-h' (exit 0) or by a
bad argument (exit 1). -/
theorem main_usage_exit_codes_witness :
    mainTcp ([.optPort "100"] ++ .optHelp :: []) = .earlyExit 0 ∧
    mainTcp ([.optPort "100"] ++ .optUnknown :: []) = .earlyExit 1 :=
  main_usage_exit_codes [.optPort "100"] [] (by decide)

/-- C10: the '-p' argument is converted by `atoi` and truncated modulo
2^16 by the `static_cast<U16>`; on input "65536" the stored port is 0, so
`setupTopology` treats the transport as unset and never starts the
driver. -/
theorem port_atoi_u16_truncation :
    (∀ s hostname port, mainArgLoop [.optPort s] hostname port =
        .run (.tcp hostname (toU16 (atoi s)))) ∧
    mainTcp [.optHostname "127.0.0.1", .optPort "65536"] =
      .run (.tcp (some "127.0.0.1") 0) ∧
    toU16 (atoi "65536") = 0 ∧
    Event.comDriverStart ∉ setupTopology (.tcp (some "127.0.0.1") 0) true := by
  refine ⟨fun s hostname port => rfl, by decide, by decide, by decide⟩

/-- C2: once a `stopSimulatedCycle` step has executed, any continuation of
the `startSimulatedCycle` loop emits at most one further base tick
(`blockDrv.callIsr`); the loop can then run to its return (`pc = done`)
with at most one tick; and after any loop iteration whose locked read
observes the cleared flag, no tick at all is emitted. -/
theorem stop_then_at_most_one_tick :
    (∀ s s1 s2 tr, CycleStep s .stop s1 → CycleTrace s1 tr s2 →
      countTicks tr ≤ 1) ∧
    (∀ s s1, CycleStep s .stop s1 →
      ∃ tr s2, CycleTrace s1 tr s2 ∧ s2.pc = .done ∧ countTicks tr ≤ 1) ∧
    (∀ s s1 s2 tr, CycleStep s (.readFlag false) s1 → CycleTrace s1 tr s2 →
      countTicks tr = 0) := by
  refine ⟨?_, ?_, ?_⟩
  · intro s s1 s2 tr hstep htr
    cases hstep
    exact le_trans (htr.ticks_le_budget rfl) (tickBudget_le_one _)
  · intro s s1 hstep
    cases hstep with
    | stop pc c f =>
        obtain ⟨tr, s2, htr, hdone, hle⟩ :=
          CycleState.terminates_of_flag_false ⟨pc, c, false⟩ rfl
        exact ⟨tr, s2, htr, hdone, le_trans hle (tickBudget_le_one _)⟩
  · intro s s1 s2 tr hstep htr
    cases hstep with
    | readInit c f => simpa [tickBudget] using htr.ticks_le_budget rfl
    | readAgain c f => simpa [tickBudget] using htr.ticks_le_budget rfl

/-- Witness for C2: from the state about to execute `blockDrv.callIsr`, a
`stopSimulatedCycle` step followed by the loop finishing its iteration
and exiting emits exactly one tick — at most one. -/
theorem stop_then_at_most_one_tick_witness :
    countTicks [CycleLabel.tick, .tau, .readFlag false, .tau] ≤ 1 :=
  stop_then_at_most_one_tick.1 ⟨.tickCall, true, true⟩ ⟨.tickCall, true, false⟩
    ⟨.done, false, false⟩ [CycleLabel.tick, .tau, .readFlag false, .tau]
    (CycleStep.stop .tickCall true true)
    (.cons (.tick true false) (.cons (.sleep true false)
      (.cons (.readAgain true false) (.cons (.loopExit false) (.refl _)))))

/-- C8: when the cancellation flag is already cleared before
`startSimulatedCycle` is entered, no execution from the entry point emits
any base tick, and the initial locked read followed by the failed
while-test returns at once. -/
theorem cleared_before_entry_no_ticks :
    (∀ c s2 tr, CycleTrace ⟨.readInit, c, false⟩ tr s2 → countTicks tr = 0) ∧
    ∀ c, CycleTrace ⟨.readInit, c, false⟩ [.readFlag false, .tau] ⟨.done, false, false⟩ := by
  constructor
  · intro c s2 tr htr
    simpa [tickBudget] using htr.ticks_le_budget rfl
  · intro c
    exact .cons (.readInit c false) (.cons (.loopExit false) (.refl _))

/-- Witness for C8: the two-step returning execution from a cleared-flag
entry emits zero ticks. -/
theorem cleared_before_entry_no_ticks_witness :
    countTicks [CycleLabel.readFlag false, CycleLabel.tau] = 0 :=
  cleared_before_entry_no_ticks.1 true ⟨.done, false, false⟩
    [CycleLabel.readFlag false, CycleLabel.tau]
    (.cons (.readInit true false) (.cons (.loopExit false) (.refl _)))

end FprimeDeployment
